import Mathlib

/-!
Verification development for the `golang-client-server` repository.

The repository contains three load-generator clients and one mock server:
  * `node-request/request.js` — the Node client (`getArgs`, `singleRequest`, `main`);
  * `unnamed/part_000` — an earlier Node client variant of the same shape;
  * `request/request.go` — the Go client (`main`, `makeRequest`);
  * `response/response.go` — the mock HTTP server (out of scope here).

Each client issues batches of concurrent HTTP GET requests against a target
URL in an infinite loop.  The network is external to the program, so it is
embedded as an *oracle*: a value describing how one fetch attempt resolved
(the promise rejected with a JavaScript error object, or a response with a
given status arrived and its body read either succeeded or failed).  Every
definition below translates a concrete piece of the source, with the file
and line range named in its doc comment.
-/

namespace GCS

/-- A JavaScript error object as inspected by the `catch` blocks of the
clients: the `name` and `message` properties. -/
structure ErrorObj where
  name : String
  message : String
deriving DecidableEq, Repr

/-- Result of awaiting `response.text()` inside the `try` block: either the
body string, or the rejection error (e.g. an abort firing mid-read). -/
inductive BodyRead where
  | ok (body : String)
  | err (e : ErrorObj)
deriving DecidableEq, Repr

/-- How one fetch attempt resolved, as observed by `singleRequest`'s `try`
block: either `fetch` itself rejected with an error object, or it resolved
with a response carrying an HTTP status whose body read then either
completed or rejected. -/
inductive FetchEvent where
  | reject (e : ErrorObj)
  | response (status : Nat) (body : BodyRead)
deriving DecidableEq, Repr

/-- The `status` field of a request outcome: the string `'success'` or
`'failed'` in the source. -/
inductive Status where
  | success
  | failed
deriving DecidableEq, Repr

/-- The structured result object returned by `singleRequest`
(node-request/request.js lines 93-95 and 106): `status`, `id`, and —
depending on the branch — `httpStatus` or `reason`. -/
structure Outcome where
  status : Status
  id : Nat
  httpStatus : Option Nat := none
  reason : Option String := none
deriving DecidableEq, Repr

/-- `response.ok` per the fetch API used at node-request/request.js line 92:
true exactly when the status is in the inclusive range 200..299. -/
def responseOk (status : Nat) : Bool :=
  (200 ≤ status) && (status ≤ 299)

/-- The `HTTP <status>` reason string built at node-request/request.js
line 93. -/
def httpReason (status : Nat) : String :=
  "HTTP " ++ toString status

/-- The `catch` block's reason (node-request/request.js lines 101-105):
`error.message`, overridden to `"Timeout"` when `error.name` is
`'AbortError'`. -/
def catchReason (e : ErrorObj) : String :=
  if e.name = "AbortError" then "Timeout" else e.message

/-- `singleRequest` of node-request/request.js (lines 64-108), as a function
of the request `id` and of the fetch event delivered by the environment.
The `try` block awaits `fetch` and then `response.text()`; a rejection of
either lands in the single `catch` block, which classifies via
`catchReason`.  A completed body read reaches the `response.ok` test:
non-ok statuses return a failed outcome with reason `HTTP <status>`,
ok statuses a success outcome recording `httpStatus`. -/
def singleRequest (id : Nat) (ev : FetchEvent) : Outcome :=
  match ev with
  | .response st (.ok _) =>
      if !responseOk st then
        { status := .failed, id := id, reason := some (httpReason st) }
      else
        { status := .success, id := id, httpStatus := some st }
  | .response _ (.err e) =>
      { status := .failed, id := id, reason := some (catchReason e) }
  | .reject e =>
      { status := .failed, id := id, reason := some (catchReason e) }

/-- One batch of the Node client's `main` (node-request/request.js lines
118-125): the loop pushes `singleRequest(i + 1, …)` for `i = 0 .. N-1` and
`Promise.allSettled` collects every settled result in launch order.  The
oracle assigns each request id its fetch event. -/
def runBatch (concurrency : Nat) (oracle : Nat → FetchEvent) : List Outcome :=
  (List.range concurrency).map (fun i => singleRequest (i + 1) (oracle (i + 1)))

/-- The launch ids of one Go batch (request/request.go lines 62-70): the
loop runs `i = 0 .. *numRequests-1` and passes `i+1` as the request id,
with `wg.Add(1)` before each launch and `wg.Wait()` joining all of them. -/
def goBatchLaunchIds (numRequests : Nat) : List Nat :=
  (List.range numRequests).map (fun i => i + 1)

/-- The first `k` batch results of the Node client's infinite `while (true)`
loop (node-request/request.js lines 116-130): each iteration builds a batch,
awaits `Promise.allSettled` on all of it, reports, and only then starts the
next iteration.  Batches are indexed from 1; the oracle gives batch `b`,
request `i` its fetch event. -/
def jsDriverRun (concurrency : Nat) (oracle : Nat → Nat → FetchEvent) :
    Nat → List (List Outcome)
  | 0 => []
  | k + 1 => jsDriverRun concurrency oracle k ++ [runBatch concurrency (oracle (k + 1))]

theorem singleRequest_id (id : Nat) (ev : FetchEvent) :
    (singleRequest id ev).id = id := by
  cases ev with
  | reject e => rfl
  | response st b =>
      cases b with
      | ok s =>
          by_cases h : responseOk st <;> simp [singleRequest, h]
      | err e => rfl

theorem runBatch_map_id (N : Nat) (oracle : Nat → FetchEvent) :
    (runBatch N oracle).map Outcome.id = List.range' 1 N := by
  simp only [runBatch, List.map_map]
  have h : (Outcome.id ∘ fun i => singleRequest (i + 1) (oracle (i + 1))) =
      (fun i => i + 1) := by
    funext i
    simp [singleRequest_id]
  rw [h, List.range'_eq_map_range]
  exact List.map_congr_left (fun i _ => Nat.add_comm i 1)

/-- C1: a batch launches exactly N executors with ids 1..N in launch order,
joins all of them, and the settled outcome sequence has length N with ids
forming {1..N} — no duplicates, no omissions — ordered by launch order.
The Go batch launches the same id sequence 1..N. -/
theorem batch_ids_complete (N : Nat) (oracle : Nat → FetchEvent) (h : 1 ≤ N) :
    (runBatch N oracle).length = N ∧
    (runBatch N oracle).map Outcome.id = List.range' 1 N ∧
    ((runBatch N oracle).map Outcome.id).Nodup ∧
    (∀ k, k ∈ (runBatch N oracle).map Outcome.id ↔ 1 ≤ k ∧ k ≤ N) ∧
    goBatchLaunchIds N = List.range' 1 N := by
  have hgo : goBatchLaunchIds N = List.range' 1 N := by
    rw [goBatchLaunchIds, List.range'_eq_map_range]
    exact List.map_congr_left (fun i _ => Nat.add_comm i 1)
  refine ⟨by simp [runBatch], runBatch_map_id N oracle, ?_, ?_, hgo⟩
  · rw [runBatch_map_id]
    exact List.nodup_range' 1 N
  · intro k
    rw [runBatch_map_id, List.mem_range'_1]
    omega

/-- Closed instance of C1 at N = 3 with a concrete oracle. -/
theorem batch_ids_complete_witness :
    (runBatch 3 (fun _ => FetchEvent.response 200 (BodyRead.ok ""))).length = 3 ∧
    (runBatch 3 (fun _ => FetchEvent.response 200 (BodyRead.ok ""))).map Outcome.id =
      List.range' 1 3 ∧
    ((runBatch 3 (fun _ => FetchEvent.response 200 (BodyRead.ok ""))).map Outcome.id).Nodup ∧
    (∀ k, k ∈ (runBatch 3 (fun _ => FetchEvent.response 200 (BodyRead.ok ""))).map Outcome.id ↔
      1 ≤ k ∧ k ≤ 3) ∧
    goBatchLaunchIds 3 = List.range' 1 3 :=
  batch_ids_complete 3 (fun _ => FetchEvent.response 200 (BodyRead.ok "")) (by decide)

/-- The fetch event of a Go request (request/request.go lines 96-109), as
observed by `makeRequest`: either `client.Do` returned an error, or a
response with a status arrived and draining its body with `io.Copy` either
succeeded or returned an error. -/
inductive GoEvent where
  | doErr (msg : String)
  | resp (status : Nat) (bodyCopyErr : Option String)
deriving DecidableEq, Repr

/-- The terminal outcome of the Go `makeRequest` (request/request.go lines
86-116).  The function returns nothing; what distinguishes its exits is
which log line it reaches: the `client.Do` error return (line 98), the
body-read error return (line 111), or the final
`Finished with status: %s` line (line 115). -/
inductive GoResult where
  | errorDo (msg : String)
  | errorBody (msg : String)
  | finished (status : Nat)
deriving DecidableEq, Repr

/-- `makeRequest` of request/request.go lines 86-116 as a function of the
fetch event.  Note there is no inspection of the HTTP status code: any
response whose body drains reaches the `Finished` exit, whatever its
status. -/
def makeRequest (ev : GoEvent) : GoResult :=
  match ev with
  | .doErr msg => .errorDo msg
  | .resp _ (some msg) => .errorBody msg
  | .resp st none => .finished st

/-- Whether the Go `makeRequest` reports a response with the given HTTP
status (and a clean body read) as any kind of failure: true iff its exit
is not the plain `Finished` log line. -/
def goReportsHTTPFailure (status : Nat) : Bool :=
  match makeRequest (.resp status none) with
  | .finished _ => false
  | _ => true

/-- The rejection delivered when the timeout elapses.  Modelled from the
runtime: `AbortSignal.timeout` (node-request/request.js line 70) aborts
its signal with a DOMException named `'TimeoutError'` — the name
`'AbortError'` belongs only to a manual `controller.abort()`, which this
program never performs — and built-in fetch rejects the pending `fetch`
or `response.text()` promise with that abort reason. -/
def timeoutAbortError : ErrorObj :=
  { name := "TimeoutError", message := "The operation was aborted due to timeout" }

/-- C2: a request whose attempt exceeds the configured timeout does NOT
settle with reason exactly `"Timeout"`.  The firing `AbortSignal.timeout`
rejects with a `'TimeoutError'` DOMException, while the `catch` block at
node-request/request.js line 103 tests `error.name === 'AbortError'`; the
test is false, so — whether the abort lands during `fetch` or during the
body read — the outcome's reason is `error.message`, and the `"Timeout"`
normalisation branch is unreachable on a real timeout. -/
theorem timeout_reason_not_timeout :
    singleRequest 1 (.reject timeoutAbortError) =
      { status := .failed, id := 1,
        reason := some "The operation was aborted due to timeout" } ∧
    singleRequest 1 (.response 200 (.err timeoutAbortError)) =
      { status := .failed, id := 1,
        reason := some "The operation was aborted due to timeout" } ∧
    (some "The operation was aborted due to timeout" : Option String) ≠ some "Timeout" := by
  refine ⟨rfl, rfl, by decide⟩

/-- C3 counterexample: the Go client does not apply the HTTP-status
classification.  For a response with status 500 whose body drains cleanly,
`makeRequest` reaches its plain `Finished` exit recording status 500 and
reports no failure at all — there is no `Failed, reason="HTTP 500"`
outcome in the Go client. -/
theorem go_no_http_classification :
    makeRequest (GoEvent.resp 500 none) = GoResult.finished 500 ∧
    goReportsHTTPFailure 500 = false :=
  ⟨rfl, rfl⟩

/-- C3 amended: the Node client classifies a completed exchange by
`response.ok` — non-2xx statuses yield a failed outcome with reason
exactly `HTTP <status>`, 2xx statuses a success outcome with `httpStatus`
recorded — while the Go client performs no status classification and
reaches its `Finished` exit for every drained response regardless of
status. -/
theorem http_status_classification (id st : Nat) (body : String) :
    (responseOk st = false →
      singleRequest id (.response st (.ok body)) =
        { status := .failed, id := id, reason := some (httpReason st) }) ∧
    (responseOk st = true →
      singleRequest id (.response st (.ok body)) =
        { status := .success, id := id, httpStatus := some st }) ∧
    makeRequest (GoEvent.resp st none) = GoResult.finished st := by
  refine ⟨?_, ?_, rfl⟩ <;> intro h <;> simp [singleRequest, h]

/-- Closed instance of C3's amended statement at statuses 500 and 200. -/
theorem http_status_classification_witness :
    singleRequest 1 (.response 500 (.ok "")) =
      { status := .failed, id := 1, reason := some (httpReason 500) } ∧
    singleRequest 2 (.response 200 (.ok "")) =
      { status := .success, id := 2, httpStatus := some 200 } ∧
    makeRequest (GoEvent.resp 500 none) = GoResult.finished 500 :=
  ⟨(http_status_classification 1 500 "").1 rfl,
   (http_status_classification 2 200 "").2.1 rfl,
   (http_status_classification 1 500 "").2.2⟩

/-- The reusable HTTP client configuration built by the Go `main`
(request/request.go lines 32-43): the transport's pool bounds and
keep-alive switch, and the client's per-request `Timeout`. -/
structure GoClientConfig where
  timeoutMs : Int
  maxIdleConns : Int
  maxConnsPerHost : Int
  disableKeepAlives : Bool
deriving DecidableEq, Repr

/-- The flag-and-client setup phase of the Go `main` (request/request.go
lines 19-43), with the `flag` package's pointer cells made explicit:
`flag.Int` and `flag.Bool` (lines 19-22) initialise each cell to its
default; line 23 computes `duration` by dereferencing `*ms` — which at that
point still holds the default 2000, because `flag.Parse()` only runs on
line 24; the parse then overwrites the cells with the command-line values;
lines 32-43 build the client, dereferencing `*numRequests` and
`*keepalive` after the parse but using the pre-parse `duration` as the
client `Timeout`. -/
def goMainSetup (argN argMs : Int) (argKeepalive : Bool) : GoClientConfig :=
  let msCell : Int := 2000
  let nCell : Int := 10
  let kaCell : Bool := false
  let duration : Int := msCell
  let msCell : Int := argMs
  let nCell : Int := argN
  let kaCell : Bool := argKeepalive
  { timeoutMs := duration
    maxIdleConns := nCell
    maxConnsPerHost := nCell
    disableKeepAlives := !kaCell }

/-- C4: the Go client's per-request timeout does not equal the configured
`-ms` value.  Because `duration` is computed from `*ms` before
`flag.Parse()` runs, the client `Timeout` is always the default 2000 ms:
invoked with `-ms=5000`, the per-request timeout is 2000 ms, not the
configured 5000 ms. -/
theorem go_timeout_ignores_ms_flag :
    (goMainSetup 10 5000 false).timeoutMs = 2000 ∧ (2000 : Int) ≠ 5000 ∧
    (∀ argN argMs : Int, ∀ ka : Bool, (goMainSetup argN argMs ka).timeoutMs = 2000) :=
  ⟨rfl, by decide, fun _ _ _ => rfl⟩

/-- The static members available on `AbortController` at
unnamed/part_000 line 81.  Modelled from the JavaScript runtime: the
standard `AbortController` has no static `timeout` function (the timeout
signal factory is `AbortSignal.timeout`, the call the sibling
node-request/request.js line 70 makes), so the member lookup
`AbortController.timeout` yields `undefined`, i.e. `none`. -/
def abortControllerTimeoutMember : Option (Int → Unit) := none

/-- The `try`-block and `catch`-block body of the part_000 `singleRequest`
(unnamed/part_000 lines 85-109), identical in classification to the
node-request version: completed non-ok responses yield `HTTP <status>`,
caught errors yield `error.message` with `'AbortError'` mapped to
`"Timeout"`. -/
def part000Body (id : Nat) (ev : FetchEvent) : Outcome :=
  match ev with
  | .response st (.ok _) =>
      if !responseOk st then
        { status := .failed, id := id, reason := some (httpReason st) }
      else
        { status := .success, id := id, httpStatus := some st }
  | .response _ (.err e) =>
      { status := .failed, id := id, reason := some (catchReason e) }
  | .reject e =>
      { status := .failed, id := id, reason := some (catchReason e) }

/-- `singleRequest` of unnamed/part_000 (lines 76-110).  The `fetchOptions`
object literal (lines 80-83) is evaluated before the `try` block is
entered, and its `signal` property calls `AbortController.timeout(timeout)`.
As that member is `undefined`, the call raises a `TypeError` outside the
`try`/`catch`, so the async function's promise rejects with the error
instead of resolving to an outcome object. -/
def part000SingleRequest (id : Nat) (timeout : Int) (ev : FetchEvent) :
    Except ErrorObj Outcome :=
  match abortControllerTimeoutMember with
  | none =>
      Except.error { name := "TypeError",
                     message := "AbortController.timeout is not a function" }
  | some f =>
      let _ := f timeout
      Except.ok (part000Body id ev)

/-- C5: the part_000 executor propagates a fault to its caller on every
invocation.  Even when the environment would deliver a clean 200 response,
the promise rejects with the `TypeError` raised by the pre-`try`
`AbortController.timeout` call instead of returning a RequestOutcome —
whereas the repaired node-request executor is total and always returns an
outcome. -/
theorem part000_rejects_every_call :
    part000SingleRequest 1 5000 (FetchEvent.response 200 (BodyRead.ok "")) =
      Except.error { name := "TypeError",
                     message := "AbortController.timeout is not a function" } ∧
    (∀ ev : FetchEvent,
      part000SingleRequest 1 5000 ev =
        Except.error { name := "TypeError",
                       message := "AbortController.timeout is not a function" }) :=
  ⟨rfl, fun _ => rfl⟩

/-- The validated configuration record the Node `getArgs` returns
(node-request/request.js lines 33-38). -/
structure Config where
  url : String
  concurrency : Int
  timeout : Int
  keepAlive : Bool
deriving DecidableEq, Repr

/-- `getArgs` of node-request/request.js (lines 11-53) after flag parsing:
`urlOpt` is the `--url` value if present, `urlValid` whether `new URL`
accepts it, and `conc`/`tmo` the `parseInt` results of `--concurrency` and
`--timeout` with `none` standing for `NaN`.  A thrown validation error is
caught at line 48 and leads to `process.exit(1)` before any batch starts;
it is embedded as `Except.error` with the thrown message. -/
def getArgs (urlOpt : Option String) (urlValid : Bool)
    (conc tmo : Option Int) (keepalive : Bool) : Except String Config :=
  match urlOpt with
  | none => Except.error "--url is a required argument."
  | some url =>
      if !urlValid then
        Except.error ("Invalid URL provided: " ++ url)
      else
        match conc with
        | none => Except.error "--concurrency must be a number greater than 0."
        | some c =>
            if c < 1 then
              Except.error "--concurrency must be a number greater than 0."
            else
              match tmo with
              | none => Except.error "--timeout must be a number greater than 0."
              | some t =>
                  if t < 1 then
                    Except.error "--timeout must be a number greater than 0."
                  else
                    Except.ok { url := url, concurrency := c, timeout := t,
                                keepAlive := keepalive }

/-- The pre-loop phase of the Go `main` (request/request.go lines 15-49):
between `flag.Parse()` and the `for` loop there is no validation of
`-n` or `-ms` whatsoever — every invocation reaches the loop, so the
embedding has no error branch. -/
def goMainPreLoop (argN argMs : Int) (argKeepalive : Bool) :
    Except String GoClientConfig :=
  Except.ok (goMainSetup argN argMs argKeepalive)

/-- Whether the Go `main` enters its infinite batch loop for the given
flag values. -/
def goMainStartsLoop (argN argMs : Int) (argKeepalive : Bool) : Bool :=
  match goMainPreLoop argN argMs argKeepalive with
  | .ok _ => true
  | .error _ => false

/-- C6 counterexample: handed a non-positive concurrency (`-n=0`), the Go
client does not fail fast — it proceeds past flag parsing with no check
and starts the batch loop. -/
theorem go_starts_loop_nonpositive_concurrency :
    goMainStartsLoop 0 2000 false = true ∧ goMainStartsLoop (-1) (-5) false = true :=
  ⟨rfl, rfl⟩

/-- C6 amended: the Node client fails fast on a non-positive concurrency
or timeout — `getArgs` throws and the process exits before the loop — but
the Go client performs no such validation and starts the loop for every
flag value, non-positive ones included. -/
theorem nonpositive_config_validation (u : String) (c t : Int) (ka : Bool)
    (h : c < 1 ∨ t < 1) :
    (∃ msg, getArgs (some u) true (some c) (some t) ka = Except.error msg) ∧
    goMainStartsLoop c t ka = true := by
  refine ⟨?_, rfl⟩
  by_cases hc : c < 1
  · exact ⟨"--concurrency must be a number greater than 0.", by simp [getArgs, hc]⟩
  · have ht : t < 1 := h.resolve_left hc
    exact ⟨"--timeout must be a number greater than 0.", by simp [getArgs, hc, ht]⟩

/-- Closed instance of C6's amended statement at concurrency 0,
timeout 5000. -/
theorem nonpositive_config_validation_witness :
    (∃ msg, getArgs (some "http://localhost:8080") true (some 0) (some 5000) false =
      Except.error msg) ∧
    goMainStartsLoop 0 5000 false = true :=
  nonpositive_config_validation "http://localhost:8080" 0 5000 false (Or.inl (by decide))

/-- Observable events of the Go driver loop (request/request.go lines
48-81): the `Starting Batch %d` print at the top of an iteration, and the
return of `wg.Wait()` — the settle-all join — reported by the
`Batch %d: All ... completed` print. -/
inductive LoopEvent where
  | batchStart (batchNumber : Nat)
  | joined (batchNumber : Nat)
deriving DecidableEq, Repr

/-- One iteration of the Go `for` loop at batch number `b` (request/
request.go lines 49-81): print the batch start, launch the goroutines,
block on `wg.Wait()`, report the join.  The statement order of the source
is the order of the emitted events. -/
def goLoopIter (b : Nat) : List LoopEvent :=
  [LoopEvent.batchStart b, LoopEvent.joined b]

/-- The event trace of the first `k` iterations of the Go driver loop
starting from batch number `b`; `batchNumber++` (line 80) increments the
counter between iterations. -/
def goDriverTrace : Nat → Nat → List LoopEvent
  | _, 0 => []
  | b, k + 1 => goLoopIter b ++ goDriverTrace (b + 1) k

/-- The trace of the first `k` batches of the Go driver, which initialises
`batchNumber := 1` (request/request.go line 48). -/
def goDriver (k : Nat) : List LoopEvent :=
  goDriverTrace 1 k

/-- The batch numbers announced at the top of each iteration, in trace
order. -/
def startNumbers (tr : List LoopEvent) : List Nat :=
  tr.filterMap (fun e =>
    match e with
    | .batchStart n => some n
    | .joined _ => none)

theorem goDriverTrace_get (b k i : Nat) (h : i < k) :
    (goDriverTrace b k).get? (2 * i) = some (.batchStart (b + i)) ∧
    (goDriverTrace b k).get? (2 * i + 1) = some (.joined (b + i)) := by
  induction k generalizing b i with
  | zero => omega
  | succ k ih =>
      cases i with
      | zero => exact ⟨rfl, rfl⟩
      | succ i =>
          have h2 : 2 * (i + 1) = 2 * i + 1 + 1 := by ring
          have h3 : 2 * (i + 1) + 1 = (2 * i + 1) + 1 + 1 := by ring
          have hik : i < k := by omega
          have := ih (b + 1) i hik
          constructor
          · rw [h2]
            show (goDriverTrace (b + 1) k).get? (2 * i) = _
            rw [this.1]
            congr 2
            omega
          · rw [h3]
            show (goDriverTrace (b + 1) k).get? (2 * i + 1) = _
            rw [this.2]
            congr 2
            omega

theorem startNumbers_goDriverTrace (b k : Nat) :
    startNumbers (goDriverTrace b k) = List.range' b k := by
  induction k generalizing b with
  | zero => rfl
  | succ k ih =>
      rw [List.range'_succ]
      show startNumbers (goLoopIter b ++ goDriverTrace (b + 1) k) = _
      have hrec := ih (b + 1)
      simp only [startNumbers, goLoopIter, List.filterMap_append,
        List.filterMap_cons, List.filterMap_nil] at hrec ⊢
      rw [hrec]
      rfl

/-- C7: the batch numbers announced by the driver are exactly 1, 2, …, k —
starting at 1 and increasing by exactly 1 per completed batch — and the
loop is strictly sequential: for every batch `j` the `wg.Wait()` join of
batch `j` sits at trace index `2j - 1`, strictly before the start of batch
`j + 1` at trace index `2j`. -/
theorem loop_sequential_numbering (k j : Nat) (h1 : 1 ≤ j) (h2 : j + 1 ≤ k) :
    startNumbers (goDriver k) = List.range' 1 k ∧
    (goDriver k).get? (2 * j - 1) = some (.joined j) ∧
    (goDriver k).get? (2 * j) = some (.batchStart (j + 1)) ∧
    2 * j - 1 < 2 * j := by
  refine ⟨startNumbers_goDriverTrace 1 k, ?_, ?_, by omega⟩
  · have hj : j - 1 < k := by omega
    have := (goDriverTrace_get 1 k (j - 1) hj).2
    rw [show 2 * (j - 1) + 1 = 2 * j - 1 by omega] at this
    rw [goDriver, this]
    congr 2
    omega
  · have hj : j < k := by omega
    have := (goDriverTrace_get 1 k j hj).1
    rw [goDriver, this]
    congr 2
    omega

/-- Closed instance of C7 at k = 3, j = 1. -/
theorem loop_sequential_numbering_witness :
    startNumbers (goDriver 3) = List.range' 1 3 ∧
    (goDriver 3).get? (2 * 1 - 1) = some (.joined 1) ∧
    (goDriver 3).get? (2 * 1) = some (.batchStart (1 + 1)) ∧
    2 * 1 - 1 < 2 * 1 :=
  loop_sequential_numbering 3 1 (by decide) (by decide)

/-- C8: the Node driver's continuation never depends on request outcomes.
Even under an oracle for which every request of every batch fails, the
driver still reports exactly `k` batches after `k` iterations, each of
full size `concurrency`, and iteration `k + 1` extends the run with the
next batch — the loop never terminates itself over failures.  (The trace
is moreover identical in shape for any two oracles.) -/
theorem driver_survives_failures (c k : Nat) (oracle : Nat → Nat → FetchEvent)
    (h : ∀ b i, (singleRequest i (oracle b i)).status = Status.failed) :
    (jsDriverRun c oracle k).length = k ∧
    (∀ r ∈ jsDriverRun c oracle k, r.length = c) ∧
    jsDriverRun c oracle (k + 1) =
      jsDriverRun c oracle k ++ [runBatch c (oracle (k + 1))] := by
  refine ⟨?_, ?_, rfl⟩
  · induction k with
    | zero => rfl
    | succ k ih => simp [jsDriverRun, ih]
  · induction k with
    | zero => intro r hr; cases hr
    | succ k ih =>
        intro r hr
        rcases List.mem_append.mp hr with hr | hr
        · exact ih r hr
        · rcases List.mem_singleton.mp hr with rfl
          simp [runBatch]

/-- Closed instance of C8 at concurrency 2, k = 2, under an oracle whose
every attempt rejects with a transport error (a 100% failure rate). -/
theorem driver_survives_failures_witness :
    (jsDriverRun 2 (fun _ _ => FetchEvent.reject ⟨"Error", "connect ECONNREFUSED"⟩) 2).length = 2 ∧
    (∀ r ∈ jsDriverRun 2 (fun _ _ => FetchEvent.reject ⟨"Error", "connect ECONNREFUSED"⟩) 2,
      r.length = 2) ∧
    jsDriverRun 2 (fun _ _ => FetchEvent.reject ⟨"Error", "connect ECONNREFUSED"⟩) 3 =
      jsDriverRun 2 (fun _ _ => FetchEvent.reject ⟨"Error", "connect ECONNREFUSED"⟩) 2 ++
        [runBatch 2 (fun _ => FetchEvent.reject ⟨"Error", "connect ECONNREFUSED"⟩)] :=
  driver_survives_failures 2 2 (fun _ _ => FetchEvent.reject ⟨"Error", "connect ECONNREFUSED"⟩)
    (fun _ _ => rfl)

/-- An `http.Agent` object as constructed at node-request/request.js
line 72: its identity (each `new http.Agent(...)` expression allocates a
distinct object, indexed here by allocation order within the batch) and
its `keepAlive` option. -/
structure Agent where
  allocId : Nat
  keepAlive : Bool
deriving DecidableEq, Repr

/-- The `http.Agent` objects one Node batch allocates (node-request/
request.js lines 69-76 and 119-121): every `singleRequest` call evaluates
`new http.Agent({ keepAlive: keepAlive })` in its options literal.  The
allocation happens, but built-in fetch never consumes these objects —
see `agentOptionConsumed`. -/
def jsBatchAgents (concurrency : Nat) (keepAlive : Bool) : List Agent :=
  (List.range concurrency).map (fun i => { allocId := i, keepAlive := keepAlive })

/-- Whether Node's built-in fetch consumes the `agent` member of its init
object.  Modelled from the runtime: the global `fetch` the client calls at
node-request/request.js line 81 is undici's, which accepts only the WHATWG
RequestInit members (plus undici's own `dispatcher`); `agent` is a legacy
`http.request` option and is silently ignored. -/
def agentOptionConsumed : Bool := false

/-- The object that actually governs a fetch call's connection pooling:
undici's process-wide default dispatcher, or a per-request agent were one
consumed. -/
inductive ConnGovernor where
  | defaultDispatcher
  | perRequestAgent (a : Agent)
deriving DecidableEq, Repr

/-- The connection governor of request `i` of a Node batch run with the
given keep-alive flag: were the `agent` init member consumed, it would be
that request's own freshly allocated agent; as it is not, every request
falls back to undici's shared default dispatcher. -/
def jsConnGovernor (keepAlive : Bool) (i : Nat) : ConnGovernor :=
  if agentOptionConsumed then
    ConnGovernor.perRequestAgent { allocId := i, keepAlive := keepAlive }
  else
    ConnGovernor.defaultDispatcher

/-- Whether a governor keeps completed connections open, eligible for
reuse.  Modelled from the runtime: undici's default dispatcher pools with
keep-alive on; an `http.Agent` keeps connections per its `keepAlive`
option. -/
def governorKeepsAlive : ConnGovernor → Bool
  | .defaultDispatcher => true
  | .perRequestAgent a => a.keepAlive

/-- C9 counterexample: run with `keepAlive = false`, requests 0 and 1 of a
Node batch are governed by one and the same shared default dispatcher —
the `agent` the options literal builds is ignored by built-in fetch — and
that dispatcher keeps connections open for reuse, so request 0's
connection is neither independent of request 1's pool nor closed after
use, contrary to the claim's `keepAlive = false` half. -/
theorem js_keepalive_flag_ignored :
    jsConnGovernor false 0 = ConnGovernor.defaultDispatcher ∧
    jsConnGovernor false 0 = jsConnGovernor false 1 ∧
    governorKeepsAlive (jsConnGovernor false 0) = true :=
  ⟨rfl, rfl, rfl⟩

/-- C9 amended: the Go client applies the configured policy uniformly —
its single shared transport has `DisableKeepAlives` exactly the negation
of the flag — while in the Node client the flag has no effect on
connections at all: built-in fetch ignores the `agent` init member, so
every request, under either flag value, is governed by the same shared
default dispatcher, which keeps connections eligible for reuse across
requests (and in particular does not close them after use when
`keepAlive = false`). -/
theorem keepalive_policy (n : Int) (ka : Bool) (i j : Nat) :
    jsConnGovernor ka i = ConnGovernor.defaultDispatcher ∧
    jsConnGovernor ka i = jsConnGovernor ka j ∧
    governorKeepsAlive (jsConnGovernor ka i) = true ∧
    (goMainSetup n 2000 ka).disableKeepAlives = !ka :=
  ⟨rfl, rfl, rfl, rfl⟩

/-- One issued HTTP request as built by the clients: its batch id and its
header list (node-request/request.js lines 67-77, request/request.go
lines 93-94). -/
structure IssuedRequest where
  id : Nat
  headers : List (String × String)
deriving DecidableEq, Repr

/-- The requests one Node batch issues (node-request/request.js lines
67-77 and 119-121): request `i` (0-based launch index, id `i + 1`) makes
its own `randomUUID()` call — embedded as the `i`-th value of the
generator stream `g` — and sends it as the `x-mgc-test-id` header. -/
def jsIssuedRequests (concurrency : Nat) (g : Nat → String) : List IssuedRequest :=
  (List.range concurrency).map
    (fun i => { id := i + 1, headers := [("x-mgc-test-id", g i)] })

/-- The requests one Go batch issues (request/request.go lines 62-69 and
93-94): request `i` adds the `x-mgc-test-id` header with its own
`uuid.New().String()` call, embedded as the `i`-th value of the generator
stream `g`. -/
def goIssuedRequests (numRequests : Nat) (g : Nat → String) : List IssuedRequest :=
  (List.range numRequests).map
    (fun i => { id := i + 1, headers := [("x-mgc-test-id", g i)] })

/-- The value a request list carries for the `x-mgc-test-id` header at
launch index `i`. -/
def headerValue (rs : List IssuedRequest) (i : Nat) : Option String :=
  (rs.get? i).bind (fun r => r.headers.lookup "x-mgc-test-id")

theorem jsIssuedRequests_headerValue (c : Nat) (g : Nat → String) (i : Nat)
    (hi : i < c) : headerValue (jsIssuedRequests c g) i = some (g i) := by
  simp [headerValue, jsIssuedRequests, List.getElem?_map, List.getElem?_range hi, List.lookup]

theorem goIssuedRequests_headerValue (c : Nat) (g : Nat → String) (i : Nat)
    (hi : i < c) : headerValue (goIssuedRequests c g) i = some (g i) := by
  simp [headerValue, goIssuedRequests, List.getElem?_map, List.getElem?_range hi, List.lookup]

/-- C10: every request of a batch, in both clients, carries the
`x-mgc-test-id` header, its value is the request's own fresh call to the
UUID generator, and two distinct requests whose generator calls differ
(as fresh random UUIDs do) carry distinct header values. -/
theorem mgc_test_id_header (c : Nat) (g : Nat → String) (i j : Nat)
    (hi : i < c) (hj : j < c) (hg : g i ≠ g j) :
    headerValue (jsIssuedRequests c g) i = some (g i) ∧
    headerValue (goIssuedRequests c g) i = some (g i) ∧
    headerValue (jsIssuedRequests c g) i ≠ headerValue (jsIssuedRequests c g) j ∧
    headerValue (goIssuedRequests c g) i ≠ headerValue (goIssuedRequests c g) j := by
  refine ⟨jsIssuedRequests_headerValue c g i hi, goIssuedRequests_headerValue c g i hi, ?_, ?_⟩
  · rw [jsIssuedRequests_headerValue c g i hi, jsIssuedRequests_headerValue c g j hj]
    intro hcontra
    exact hg (Option.some_injective _ hcontra)
  · rw [goIssuedRequests_headerValue c g i hi, goIssuedRequests_headerValue c g j hj]
    intro hcontra
    exact hg (Option.some_injective _ hcontra)

/-- Closed instance of C10 at concurrency 2 with a concrete injective
generator stream. -/
theorem mgc_test_id_header_witness :
    headerValue (jsIssuedRequests 2 (fun n => if n = 0 then "uuid-a" else "uuid-b")) 0 =
      some ((fun n => if n = 0 then "uuid-a" else "uuid-b") 0) ∧
    headerValue (goIssuedRequests 2 (fun n => if n = 0 then "uuid-a" else "uuid-b")) 0 =
      some ((fun n => if n = 0 then "uuid-a" else "uuid-b") 0) ∧
    headerValue (jsIssuedRequests 2 (fun n => if n = 0 then "uuid-a" else "uuid-b")) 0 ≠
      headerValue (jsIssuedRequests 2 (fun n => if n = 0 then "uuid-a" else "uuid-b")) 1 ∧
    headerValue (goIssuedRequests 2 (fun n => if n = 0 then "uuid-a" else "uuid-b")) 0 ≠
      headerValue (goIssuedRequests 2 (fun n => if n = 0 then "uuid-a" else "uuid-b")) 1 :=
  mgc_test_id_header 2 (fun n => if n = 0 then "uuid-a" else "uuid-b") 0 1
    (by decide) (by decide) (by decide)

end GCS
